import Mathlib

/-!
Verification of the subscription usage-and-entitlement core of the
interview-pro backend (`src/models/subscription.py`,
`src/routes/subscription.py`, `src/services/payment_service.py`).

Python `datetime` values are modelled as year/month/day plus a
time-of-day in microseconds, compared lexicographically (matching
`datetime` comparison).  `datetime.utcnow().replace(day=1)` keeps the
time-of-day, which the model reproduces.  Float money amounts are
modelled as exact rationals, and Python 3 `round(x, 2)` as round
half-to-even at two decimal places over the rationals.
-/

namespace InterviewPro

/-- A point in time: calendar date plus time-of-day in microseconds,
mirroring Python `datetime` (compared lexicographically). -/
structure DateTime where
  year : Nat
  month : Nat
  day : Nat
  tod : Nat
deriving DecidableEq, Repr

/-- `datetime` comparison `a < b`, lexicographic on (year, month, day, tod). -/
def DateTime.ltb (a b : DateTime) : Bool :=
  if a.year ≠ b.year then a.year < b.year
  else if a.month ≠ b.month then a.month < b.month
  else if a.day ≠ b.day then a.day < b.day
  else a.tod < b.tod

/-- Python `dt.replace(day=1)`: same year, month and time-of-day, day set to 1. -/
def DateTime.replaceDay1 (a : DateTime) : DateTime :=
  { a with day := 1 }

/-- `SubscriptionPlan` row: the feature limits and flags consulted by
`can_use_feature` (0 on a countable limit means unlimited). -/
structure Plan where
  max_interviews_per_month : Nat
  max_cvs : Nat
  max_business_cards : Nat
  ai_feedback : Bool
  advanced_analytics : Bool
  priority_support : Bool
  custom_branding : Bool
deriving DecidableEq, Repr

/-- `UserSubscription` row: the fields read or written by `is_active`,
`can_use_feature`, `increment_usage` and `cancel_subscription`. -/
structure Subscription where
  status : String
  end_date : Option DateTime
  next_billing_date : Option DateTime
  cancelled_at : Option DateTime
  stripe_subscription_id : Option String
  interviews_used_this_month : Nat
  cvs_created : Nat
  business_cards_created : Nat
  usage_reset_date : Option DateTime
deriving DecidableEq, Repr

/-- `UserSubscription.is_active`: status is `'active'` and the end date,
when present, is strictly in the future. -/
def Subscription.isActive (s : Subscription) (now : DateTime) : Bool :=
  s.status = "active" &&
    (match s.end_date with
     | none => true
     | some e => DateTime.ltb now e)

/-- The lazy monthly-reset block inside `can_use_feature` (subscription.py
lines 134-138): when `usage_reset_date` is set and precedes
`now.replace(day=1)`, zero `interviews_used_this_month` and persist
`usage_reset_date := now.replace(day=1)`; otherwise leave the row alone. -/
def Subscription.applyLazyReset (s : Subscription) (now : DateTime) : Subscription :=
  match s.usage_reset_date with
  | none => s
  | some d =>
      if DateTime.ltb d now.replaceDay1 then
        { s with interviews_used_this_month := 0
                 usage_reset_date := some now.replaceDay1 }
      else s

/-- `UserSubscription.can_use_feature`: returns the verdict together with
the (possibly reset) subscription row, since the lazy monthly reset is
persisted as a side effect of the check.  `plan` is the joined
`SubscriptionPlan` row (`none` models a missing plan). -/
def Subscription.canUseFeature (s : Subscription) (plan : Option Plan)
    (feature : String) (now : DateTime) : Bool × Subscription :=
  if ¬ s.isActive now then (false, s)
  else match plan with
  | none => (false, s)
  | some p =>
      let s1 := s.applyLazyReset now
      if feature = "interview" then
        if p.max_interviews_per_month = 0 then (true, s1)
        else (s1.interviews_used_this_month < p.max_interviews_per_month, s1)
      else if feature = "cv" then
        if p.max_cvs = 0 then (true, s1)
        else (s1.cvs_created < p.max_cvs, s1)
      else if feature = "business_card" then
        if p.max_business_cards = 0 then (true, s1)
        else (s1.business_cards_created < p.max_business_cards, s1)
      else if feature = "ai_feedback" then (p.ai_feedback, s1)
      else if feature = "advanced_analytics" then (p.advanced_analytics, s1)
      else if feature = "priority_support" then (p.priority_support, s1)
      else if feature = "custom_branding" then (p.custom_branding, s1)
      else (false, s1)

/-- The `/check-feature` route's evaluation: a user with no active
subscription row gets `can_use = false`; otherwise `can_use_feature`. -/
def canUseOpt (sub : Option Subscription) (plan : Option Plan)
    (feature : String) (now : DateTime) : Bool :=
  match sub with
  | none => false
  | some s => (s.canUseFeature plan feature now).1

/-- `UserSubscription.increment_usage`: bump the counter matching the
feature kind; any other kind falls through and only commits. -/
def Subscription.incrementUsage (s : Subscription) (feature : String) : Subscription :=
  if feature = "interview" then
    { s with interviews_used_this_month := s.interviews_used_this_month + 1 }
  else if feature = "cv" then
    { s with cvs_created := s.cvs_created + 1 }
  else if feature = "business_card" then
    { s with business_cards_created := s.business_cards_created + 1 }
  else s

/-- The usage counter the `/increment-usage` route reports back:
`getattr` on `interviews_used_this_month` / `{kind}s_created`, with
default 0 for attribute names that do not exist. -/
def Subscription.usageField (s : Subscription) (feature : String) : Nat :=
  if feature = "interview" then s.interviews_used_this_month
  else if feature = "cv" then s.cvs_created
  else if feature = "business_card" then s.business_cards_created
  else 0

/-- Outcome of the `/increment-usage` route. -/
inductive IncOutcome where
  | noSubscription
  | limitReached
  | ok (newUsage : Nat)
deriving DecidableEq, Repr

/-- The `/increment-usage` route handler (routes/subscription.py lines
196-230): 404 without a subscription; 403 when `can_use_feature` denies
(the denial check may still persist the lazy reset); otherwise
`increment_usage` and report the new counter. -/
def incrementUsageRoute (sub : Option Subscription) (plan : Option Plan)
    (feature : String) (now : DateTime) : IncOutcome × Option Subscription :=
  match sub with
  | none => (.noSubscription, none)
  | some s =>
      let r := s.canUseFeature plan feature now
      if ¬ r.1 then (.limitReached, some r.2)
      else
        let s2 := r.2.incrementUsage feature
        (.ok (s2.usageField feature), some s2)

/-- `DiscountVoucher` row: the fields read by `is_valid` and
`calculate_discount`.  `applicable_plans` models the JSON-decoded
allow-list column (`none` = column NULL). -/
structure Voucher where
  code : String
  discount_type : String
  discount_value : ℚ
  max_uses : Nat
  used_count : Nat
  single_use_per_user : Bool
  valid_from : Option DateTime
  valid_until : Option DateTime
  applicable_plans : Option (List String)
  is_active : Bool
deriving DecidableEq, Repr

/-- `VoucherUse` row, as far as `is_valid`'s single-use-per-user query
reads it: which voucher was redeemed by which user. -/
structure VoucherUseRec where
  voucher_code : String
  user_id : Nat
deriving DecidableEq, Repr

/-- The `VoucherUse.query.filter_by(voucher_id=.., user_id=..)` lookup in
`is_valid`, over the table of redemption rows. -/
def priorUse (reds : List VoucherUseRec) (code : String) (uid : Nat) : Bool :=
  reds.any fun r => r.voucher_code = code && r.user_id = uid

/-- `DiscountVoucher.is_valid(user_id, plan_id)`: the ordered
short-circuit checks of subscription.py lines 232-264, each failure with
its reason string.  `uid`/`pid` are `none` when the argument is absent
(Python `None`). -/
def Voucher.isValid (v : Voucher) (now : DateTime) (uid : Option Nat)
    (pid : Option String) (reds : List VoucherUseRec) : Bool × String :=
  if ! v.is_active then (false, "Voucher is not active")
  else if (match v.valid_from with
           | none => false
           | some f => DateTime.ltb now f) then (false, "Voucher is not yet valid")
  else if (match v.valid_until with
           | none => false
           | some u => DateTime.ltb u now) then (false, "Voucher has expired")
  else if (v.max_uses ≤ v.used_count : Bool) then (false, "Voucher usage limit reached")
  else if (match pid, v.applicable_plans with
           | some p, some plans => plans ≠ [] && ! plans.contains p
           | _, _ => false) then (false, "Voucher not applicable to this plan")
  else if (match uid with
           | some u => v.single_use_per_user && priorUse reds v.code u
           | none => false) then (false, "Voucher already used by this user")
  else (true, "Voucher is valid")

/-- Outcome of `PaymentService.validate_voucher`: either an error string
or the voucher record. -/
inductive ValidateOutcome where
  | err (msg : String)
  | ok (v : Voucher)
deriving DecidableEq, Repr

/-- `PaymentService.validate_voucher(code, user_id, plan_id)`: look the
code up in the voucher table, fail with `'Invalid voucher code'` when
absent, otherwise defer to `is_valid`. -/
def validateVoucher (vouchers : List Voucher) (code : String) (now : DateTime)
    (uid : Option Nat) (pid : Option String) (reds : List VoucherUseRec) :
    ValidateOutcome :=
  match vouchers.find? (fun v => v.code = code) with
  | none => .err "Invalid voucher code"
  | some v =>
      match v.isValid now uid pid reds with
      | (true, _) => .ok v
      | (false, msg) => .err msg

/-- Round half-to-even to an integer, the tie rule of Python 3 `round`. -/
def bankersRound (q : ℚ) : ℤ :=
  let f := ⌊q⌋
  let r := q - f
  if r < 1/2 then f
  else if 1/2 < r then f + 1
  else if f % 2 = 0 then f else f + 1

/-- Python `round(x, 2)` over exact rationals. -/
def round2 (q : ℚ) : ℚ := (bankersRound (q * 100) : ℚ) / 100

/-- `DiscountVoucher.calculate_discount(original_amount)`: percentage of
the amount, or the fixed value clamped to the amount, rounded to two
decimal places. -/
def Voucher.calculateDiscount (v : Voucher) (original : ℚ) : ℚ :=
  if v.discount_type = "percentage" then
    round2 (original * (v.discount_value / 100))
  else
    round2 (min v.discount_value original)

/-- `PaymentService.cancel_subscription(user_id, immediate)`, acting on
the user's active-subscription row (`none` when the query found none):
with a provider subscription and `immediate`, or without a provider
subscription, end the access window now; with a provider subscription
and not `immediate`, only flip the status.  Returns success together
with the updated row. -/
def cancelSubscription (sub : Option Subscription) (immediate : Bool)
    (now : DateTime) : Bool × Option Subscription :=
  match sub with
  | none => (false, none)
  | some s =>
      let s1 :=
        match s.stripe_subscription_id with
        | some _ =>
            if immediate then
              { s with status := "cancelled", end_date := some now }
            else
              { s with status := "cancelled" }
        | none =>
            { s with status := "cancelled", end_date := some now }
      (true, some { s1 with cancelled_at := some now })

/-- Outcome of `PaymentService._apply_voucher`. -/
inductive ApplyOutcome where
  | failure (msg : String)
  | success
deriving DecidableEq, Repr

/-- `PaymentService._apply_voucher(code, user_id, plan_id)` over the
voucher table and redemption table: look up, validate, create a provider
coupon (external call, out of scope) and return.  The function performs
no local write, so the voucher table and the redemption table are
returned as they came in. -/
def applyVoucher (vouchers : List Voucher) (code : String) (uid : Nat)
    (pid : String) (now : DateTime) (reds : List VoucherUseRec) :
    ApplyOutcome × List Voucher × List VoucherUseRec :=
  match vouchers.find? (fun v => v.code = code) with
  | none => (.failure "Invalid voucher code", vouchers, reds)
  | some v =>
      match v.isValid now (some uid) (some pid) reds with
      | (false, msg) => (.failure msg, vouchers, reds)
      | (true, _) => (.success, vouchers, reds)

/-! Spec-side model of voucher validation, written from the specification's
words ("voucher exists → is active → now within [valid_from, valid_until] →
used_count < max_uses → plan in allow-list → no prior redemption"), to be
compared with the code model `validateVoucher`. -/

/-- The distinct failure reasons of the spec's ordered validation checks. -/
inductive VReason where
  | notFound
  | inactive
  | notYetValid
  | expired
  | usageLimit
  | planNotApplicable
  | alreadyUsed
deriving DecidableEq, Repr

/-- Spec: "now within [valid_from, valid_until]", lower side (a missing
bound is unbounded; the window is inclusive). -/
def withinWindowLow (v : Voucher) (now : DateTime) : Bool :=
  match v.valid_from with
  | none => true
  | some f => ! DateTime.ltb now f

/-- Spec: "now within [valid_from, valid_until]", upper side. -/
def withinWindowHigh (v : Voucher) (now : DateTime) : Bool :=
  match v.valid_until with
  | none => true
  | some u => ! DateTime.ltb u now

/-- Modelled from the spec's words: ordered short-circuit validation —
voucher exists, is active, now within the validity window, usage below
`max_uses`, plan in the (non-empty) allow-list when a plan is given, no
prior redemption by the user when given and single-use-per-user; success
yields the voucher record. -/
def specValidateVoucher (vouchers : List Voucher) (code : String) (now : DateTime)
    (uid : Option Nat) (pid : Option String) (reds : List VoucherUseRec) :
    Except VReason Voucher :=
  match vouchers.find? (fun v => v.code = code) with
  | none => .error .notFound
  | some v =>
      if ! v.is_active then .error .inactive
      else if ! withinWindowLow v now then .error .notYetValid
      else if ! withinWindowHigh v now then .error .expired
      else if ! (v.used_count < v.max_uses : Bool) then .error .usageLimit
      else if (match pid, v.applicable_plans with
               | some p, some plans => plans ≠ [] && ! plans.contains p
               | _, _ => false) then .error .planNotApplicable
      else if (match uid with
               | some u => v.single_use_per_user && priorUse reds v.code u
               | none => false) then .error .alreadyUsed
      else .ok v

/-- The reason string the code attaches to each spec-level failure. -/
def reasonString : VReason → String
  | .notFound => "Invalid voucher code"
  | .inactive => "Voucher is not active"
  | .notYetValid => "Voucher is not yet valid"
  | .expired => "Voucher has expired"
  | .usageLimit => "Voucher usage limit reached"
  | .planNotApplicable => "Voucher not applicable to this plan"
  | .alreadyUsed => "Voucher already used by this user"

/-- Map a spec-level validation result to the code's outcome type. -/
def renderOutcome : Except VReason Voucher → ValidateOutcome
  | .error r => .err (reasonString r)
  | .ok v => .ok v

/-- The plan's limit for a countable feature kind, as the spec names it. -/
def countableLimit (p : Plan) (f : String) : Nat :=
  if f = "interview" then p.max_interviews_per_month
  else if f = "cv" then p.max_cvs
  else p.max_business_cards

/-- The subscription's usage counter for a countable feature kind. -/
def usedCount (s : Subscription) (f : String) : Nat :=
  if f = "interview" then s.interviews_used_this_month
  else if f = "cv" then s.cvs_created
  else s.business_cards_created

/-! Concrete rows used to instantiate the theorems. -/

def dJan1 : DateTime := ⟨2025, 1, 1, 0⟩
def dApr15 : DateTime := ⟨2025, 4, 15, 0⟩
def dMay1 : DateTime := ⟨2025, 5, 1, 0⟩
def dMay1early : DateTime := ⟨2025, 5, 1, 100⟩
def dMay1late : DateTime := ⟨2025, 5, 1, 200⟩
def dMay10 : DateTime := ⟨2025, 5, 10, 0⟩
def dJun10 : DateTime := ⟨2025, 6, 10, 0⟩
def dJun11 : DateTime := ⟨2025, 6, 11, 0⟩
def dJun15 : DateTime := ⟨2025, 6, 15, 0⟩
def dJun20 : DateTime := ⟨2025, 6, 20, 0⟩

/-- The source's `basic` plan: 20 interviews/month, 5 CVs, 3 business
cards, AI feedback only. -/
def planBasic : Plan :=
  { max_interviews_per_month := 20, max_cvs := 5, max_business_cards := 3
    ai_feedback := true, advanced_analytics := false
    priority_support := false, custom_branding := false }

/-- Active subscription at the basic plan's interview limit, with a
usage-reset date from the previous month. -/
def subAtInterviewLimit : Subscription :=
  { status := "active", end_date := none, next_billing_date := none
    cancelled_at := none, stripe_subscription_id := none
    interviews_used_this_month := 20, cvs_created := 0
    business_cards_created := 0, usage_reset_date := some dApr15 }

/-- Active subscription at the basic plan's CV limit, current period. -/
def subAtCvLimit : Subscription :=
  { status := "active", end_date := none, next_billing_date := none
    cancelled_at := none, stripe_subscription_id := none
    interviews_used_this_month := 0, cvs_created := 5
    business_cards_created := 0, usage_reset_date := some dMay1 }

/-- Active subscription with nonzero counters and a stale (previous
month) usage-reset date. -/
def subStaleReset : Subscription :=
  { status := "active", end_date := none, next_billing_date := none
    cancelled_at := none, stripe_subscription_id := none
    interviews_used_this_month := 4, cvs_created := 3
    business_cards_created := 2, usage_reset_date := some dApr15 }

/-- Active subscription whose usage-reset date was persisted earlier on
day 1 of the current month. -/
def subDay1Reset : Subscription :=
  { status := "active", end_date := none, next_billing_date := none
    cancelled_at := none, stripe_subscription_id := none
    interviews_used_this_month := 2, cvs_created := 0
    business_cards_created := 0, usage_reset_date := some dMay1early }

/-- A cancelled subscription. -/
def subCancelled : Subscription :=
  { status := "cancelled", end_date := none, next_billing_date := none
    cancelled_at := some dApr15, stripe_subscription_id := none
    interviews_used_this_month := 0, cvs_created := 0
    business_cards_created := 0, usage_reset_date := some dMay1 }

/-- Active paid subscription with a provider id and an access window
ending June 20. -/
def subPaid : Subscription :=
  { status := "active", end_date := some dJun20
    next_billing_date := some dJun20, cancelled_at := none
    stripe_subscription_id := some "sub_123"
    interviews_used_this_month := 1, cvs_created := 1
    business_cards_created := 0, usage_reset_date := some dJun10 }

/-- Active subscription with room left under all limits. -/
def subFresh : Subscription :=
  { status := "active", end_date := none, next_billing_date := none
    cancelled_at := none, stripe_subscription_id := none
    interviews_used_this_month := 3, cvs_created := 2
    business_cards_created := 1, usage_reset_date := some dMay1 }

/-- Active percentage voucher whose validity ends exactly June 15. -/
def voucherBoundary : Voucher :=
  { code := "SUMMER", discount_type := "percentage", discount_value := 20
    max_uses := 10, used_count := 0, single_use_per_user := false
    valid_from := some dJan1, valid_until := some dJun15
    applicable_plans := none, is_active := true }

/-- Active single-use voucher with `max_uses = 1`. -/
def voucherSingleUse : Voucher :=
  { code := "WELCOME", discount_type := "percentage", discount_value := 50
    max_uses := 1, used_count := 0, single_use_per_user := true
    valid_from := some dJan1, valid_until := some dJun20
    applicable_plans := none, is_active := true }

/-- 20% percentage voucher. -/
def voucherPct20 : Voucher :=
  { code := "SAVE20", discount_type := "percentage", discount_value := 20
    max_uses := 100, used_count := 0, single_use_per_user := false
    valid_from := some dJan1, valid_until := some dJun20
    applicable_plans := none, is_active := true }

/-- Fixed-amount voucher worth 1 currency unit. -/
def voucherFixed1 : Voucher :=
  { code := "FIX1", discount_type := "fixed_amount", discount_value := 1
    max_uses := 100, used_count := 0, single_use_per_user := false
    valid_from := some dJan1, valid_until := some dJun20
    applicable_plans := none, is_active := true }

/-- Fixed-amount voucher with a negative stored value. -/
def voucherFixedNeg : Voucher :=
  { code := "NEG5", discount_type := "fixed_amount", discount_value := -5
    max_uses := 100, used_count := 0, single_use_per_user := false
    valid_from := some dJan1, valid_until := some dJun20
    applicable_plans := none, is_active := true }

/-! Helper lemmas. -/

theorem DateTime.ltb_self (a : DateTime) : DateTime.ltb a a = false := by
  simp [DateTime.ltb]

/-- For an active subscription with a plan, `can_use_feature` returns the
row produced by the lazy monthly reset, whatever the feature kind. -/
theorem canUseFeature_snd (s : Subscription) (p : Plan) (f : String)
    (now : DateTime) (h : s.isActive now = true) :
    (s.canUseFeature (some p) f now).2 = s.applyLazyReset now := by
  unfold Subscription.canUseFeature
  rw [if_neg (by simp [h])]
  split_ifs <;> first
  | rfl
  | (dsimp only; split_ifs <;> rfl)

/-- The lazy monthly reset never touches the CV counter. -/
theorem applyLazyReset_cvs (s : Subscription) (now : DateTime) :
    (s.applyLazyReset now).cvs_created = s.cvs_created := by
  unfold Subscription.applyLazyReset
  cases s.usage_reset_date
  · rfl
  · dsimp only
    split_ifs <;> rfl

/-- The lazy monthly reset never touches the business-card counter. -/
theorem applyLazyReset_cards (s : Subscription) (now : DateTime) :
    (s.applyLazyReset now).business_cards_created = s.business_cards_created := by
  unfold Subscription.applyLazyReset
  cases s.usage_reset_date
  · rfl
  · dsimp only
    split_ifs <;> rfl

/-- Failing the lower side of the validity window is exactly the code's
`valid_from > now` test. -/
theorem windowLow_neg (v : Voucher) (now : DateTime) :
    (! withinWindowLow v now) =
      (match v.valid_from with
       | none => false
       | some f => DateTime.ltb now f) := by
  unfold withinWindowLow
  cases v.valid_from <;> simp

/-- Failing the upper side of the validity window is exactly the code's
`valid_until < now` test. -/
theorem windowHigh_neg (v : Voucher) (now : DateTime) :
    (! withinWindowHigh v now) =
      (match v.valid_until with
       | none => false
       | some u => DateTime.ltb u now) := by
  unfold withinWindowHigh
  cases v.valid_until <;> simp

/-- Failing `used_count < max_uses` is exactly the code's
`used_count >= max_uses` test. -/
theorem usage_neg (a b : Nat) : (! decide (a < b)) = decide (b ≤ a) := by
  by_cases h : a < b
  · simp [h, Nat.not_le.mpr h]
  · simp [h, Nat.not_lt.mp h]

theorem bankersRound_le (q : ℚ) : (bankersRound q : ℚ) ≤ q + 1/2 := by
  unfold bankersRound
  have h1 := Int.floor_le q
  have h2 := Int.lt_floor_add_one q
  dsimp only
  split_ifs <;> push_cast <;> linarith

theorem le_bankersRound (q : ℚ) : q - 1/2 ≤ (bankersRound q : ℚ) := by
  unfold bankersRound
  have h1 := Int.floor_le q
  have h2 := Int.lt_floor_add_one q
  dsimp only
  split_ifs <;> push_cast <;> linarith

theorem bankersRound_nonneg (q : ℚ) (h : 0 ≤ q) : 0 ≤ bankersRound q := by
  have h1 := le_bankersRound q
  have h2 : (-1 : ℚ) < (bankersRound q : ℚ) := by linarith
  have h3 : (-1 : ℤ) < bankersRound q := by exact_mod_cast h2
  omega

theorem bankersRound_le_int (q : ℚ) (n : ℤ) (h : q ≤ (n : ℚ)) :
    bankersRound q ≤ n := by
  have h1 := bankersRound_le q
  have h2 : (bankersRound q : ℚ) < (n : ℚ) + 1 := by linarith
  have h3 : bankersRound q < n + 1 := by exact_mod_cast h2
  omega

theorem bankersRound_intCast (n : ℤ) : bankersRound (n : ℚ) = n := by
  unfold bankersRound
  dsimp only
  rw [Int.floor_intCast]
  norm_num

theorem bankersRound_eq_succ (q : ℚ) (n : ℤ) (h1 : (n : ℚ) + 1/2 < q)
    (h2 : q < (n : ℚ) + 1) : bankersRound q = n + 1 := by
  have hf : ⌊q⌋ = n := by
    rw [Int.floor_eq_iff]
    exact ⟨by linarith, by linarith⟩
  unfold bankersRound
  dsimp only
  rw [hf]
  rw [if_neg (by linarith), if_pos (by linarith)]

theorem round2_nonneg (q : ℚ) (h : 0 ≤ q) : 0 ≤ round2 q := by
  unfold round2
  have h1 := bankersRound_nonneg (q * 100) (by positivity)
  have h2 : (0 : ℚ) ≤ (bankersRound (q * 100) : ℚ) := by exact_mod_cast h1
  linarith

theorem round2_le_cent (q : ℚ) (k : ℕ) (h : q ≤ (k : ℚ) / 100) :
    round2 q ≤ (k : ℚ) / 100 := by
  unfold round2
  have h1 : q * 100 ≤ ((k : ℤ) : ℚ) := by push_cast; linarith
  have h2 := bankersRound_le_int (q * 100) k h1
  have h3 : (bankersRound (q * 100) : ℚ) ≤ ((k : ℤ) : ℚ) := by exact_mod_cast h2
  push_cast at h3
  linarith

/-- C2: for a null subscription, and for every subscription whose status
is not `'active'`, the entitlement check returns false for every feature
kind whatsoever and every plan. -/
theorem canUse_denied_when_not_active (plan : Option Plan) (f : String)
    (now : DateTime) :
    canUseOpt none plan f now = false ∧
    ∀ s : Subscription, s.status ≠ "active" →
      canUseOpt (some s) plan f now = false := by
  refine ⟨rfl, fun s hs => ?_⟩
  show (s.canUseFeature plan f now).1 = false
  unfold Subscription.canUseFeature
  rw [if_pos (by simp [Subscription.isActive, hs])]

/-- Witness for C2 at a cancelled subscription and the unknown feature
kind `'teleport'`. -/
theorem canUse_denied_when_not_active_witness :
    canUseOpt none (some planBasic) "teleport" dMay10 = false ∧
    canUseOpt (some subCancelled) (some planBasic) "teleport" dMay10 = false :=
  ⟨(canUse_denied_when_not_active (some planBasic) "teleport" dMay10).1,
   (canUse_denied_when_not_active (some planBasic) "teleport" dMay10).2
     subCancelled (by decide)⟩

/-- C3: for an active subscription and a countable feature, a plan limit
of 0 means the check passes regardless of the counter; for a nonzero
limit the check passes exactly when the feature's used count (as it
stands when the limit is evaluated, after the lazy monthly rollover the
same call performs) is strictly below the limit. -/
theorem canUse_countable_limit (s : Subscription) (p : Plan) (f : String)
    (now : DateTime) (hact : s.isActive now = true)
    (hf : f = "interview" ∨ f = "cv" ∨ f = "business_card") :
    (countableLimit p f = 0 → (s.canUseFeature (some p) f now).1 = true) ∧
    (countableLimit p f ≠ 0 →
      ((s.canUseFeature (some p) f now).1 = true ↔
        usedCount (s.applyLazyReset now) f < countableLimit p f)) := by
  rcases hf with hf | hf | hf <;> subst hf <;>
    simp [Subscription.canUseFeature, hact, countableLimit, usedCount] <;>
    constructor <;> intro hlim <;> simp [hlim]

/-- Witness for C3: the basic plan's CV limit 5 against a counter of 2. -/
theorem canUse_countable_limit_witness :
    (countableLimit planBasic "cv" = 0 →
      (subFresh.canUseFeature (some planBasic) "cv" dMay10).1 = true) ∧
    (countableLimit planBasic "cv" ≠ 0 →
      ((subFresh.canUseFeature (some planBasic) "cv" dMay10).1 = true ↔
        usedCount (subFresh.applyLazyReset dMay10) "cv" <
          countableLimit planBasic "cv")) :=
  canUse_countable_limit subFresh planBasic "cv" dMay10 (by decide)
    (Or.inr (Or.inl rfl))

/-- C10: `increment_usage` with a feature kind other than the three
countable ones leaves the subscription row — all three counters and every
other field — unchanged. -/
theorem incrementUsage_frame (s : Subscription) (f : String)
    (h1 : f ≠ "interview") (h2 : f ≠ "cv") (h3 : f ≠ "business_card") :
    s.incrementUsage f = s := by
  unfold Subscription.incrementUsage
  rw [if_neg h1, if_neg h2, if_neg h3]

/-- Witness for C10 at the boolean feature kind `'ai_feedback'`. -/
theorem incrementUsage_frame_witness :
    subFresh.incrementUsage "ai_feedback" = subFresh :=
  incrementUsage_frame subFresh "ai_feedback" (by decide) (by decide) (by decide)

/-- C1 counterexample: an active subscription at the basic plan's
interview limit (20 of 20) but with a stale usage-reset date is not
refused — the lazy reset zeroes the counter during the entitlement check
and the increment succeeds, leaving the counter at 1, not 20. -/
theorem incrementRoute_at_limit_counterexample :
    (incrementUsageRoute (some subAtInterviewLimit) (some planBasic)
        "interview" dMay10).1 = IncOutcome.ok 1 ∧
    ((incrementUsageRoute (some subAtInterviewLimit) (some planBasic)
        "interview" dMay10).2.map
      (fun s => s.interviews_used_this_month)) = some 1 := by
  exact ⟨rfl, rfl⟩

/-- C1 amended: at a nonzero limit the increment endpoint refuses and
leaves the feature's counter unchanged — unconditionally for `cv` and
`business_card`, and for `interview` provided the lazy monthly reset
does not fire during the check. -/
theorem incrementRoute_refuses_at_limit (s : Subscription) (p : Plan)
    (f : String) (now : DateTime) (hact : s.isActive now = true)
    (hcase :
      (f = "interview" ∧ p.max_interviews_per_month ≠ 0 ∧
        p.max_interviews_per_month ≤ s.interviews_used_this_month ∧
        s.applyLazyReset now = s) ∨
      (f = "cv" ∧ p.max_cvs ≠ 0 ∧ p.max_cvs ≤ s.cvs_created) ∨
      (f = "business_card" ∧ p.max_business_cards ≠ 0 ∧
        p.max_business_cards ≤ s.business_cards_created)) :
    (incrementUsageRoute (some s) (some p) f now).1 = IncOutcome.limitReached ∧
    ((incrementUsageRoute (some s) (some p) f now).2.map
      (fun s' => usedCount s' f)) = some (usedCount s f) := by
  have hsnd := canUseFeature_snd s p f now hact
  have h1 : (s.canUseFeature (some p) f now).1 = false := by
    rcases hcase with ⟨hf, hne, hle, hres⟩ | ⟨hf, hne, hle⟩ | ⟨hf, hne, hle⟩ <;>
      subst hf
    · simp [Subscription.canUseFeature, hact, hne, hres, Nat.not_lt.mpr hle]
    · simp [Subscription.canUseFeature, hact, hne,
        Nat.not_lt.mpr (le_trans hle (le_of_eq (applyLazyReset_cvs s now).symm))]
    · simp [Subscription.canUseFeature, hact, hne,
        Nat.not_lt.mpr (le_trans hle (le_of_eq (applyLazyReset_cards s now).symm))]
  have h2 : usedCount ((s.canUseFeature (some p) f now).2) f = usedCount s f := by
    rw [hsnd]
    rcases hcase with ⟨hf, _, _, hres⟩ | ⟨hf, _, _⟩ | ⟨hf, _, _⟩ <;> subst hf
    · rw [hres]
    · simp [usedCount, applyLazyReset_cvs]
    · simp [usedCount, applyLazyReset_cards]
  constructor
  · show (if ¬ (s.canUseFeature (some p) f now).1 = true then _ else _ :
      IncOutcome × Option Subscription).1 = IncOutcome.limitReached
    rw [if_pos (by simp [h1])]
  · show ((if ¬ (s.canUseFeature (some p) f now).1 = true then _ else _ :
      IncOutcome × Option Subscription).2.map (fun s' => usedCount s' f)) = _
    rw [if_pos (by simp [h1])]
    simp [h2]

/-- Witness for amended C1: the spec's own scenario — basic plan with
`max_cvs = 5`, `cvs_created = 5`, increment of `'cv'` is refused and the
counter stays 5. -/
theorem incrementRoute_refuses_at_limit_witness :
    (incrementUsageRoute (some subAtCvLimit) (some planBasic) "cv" dMay10).1 =
      IncOutcome.limitReached ∧
    ((incrementUsageRoute (some subAtCvLimit) (some planBasic) "cv" dMay10).2.map
      (fun s' => usedCount s' "cv")) = some (usedCount subAtCvLimit "cv") :=
  incrementRoute_refuses_at_limit subAtCvLimit planBasic "cv" dMay10 (by decide)
    (Or.inr (Or.inl ⟨rfl, by decide, by decide⟩))

/-- C6 counterexample: (a) with a stale reset date the entitlement check
zeroes only the interview counter — `cvs_created` stays 3 and
`business_cards_created` stays 2 instead of being reset to 0; (b) a
reset date persisted earlier on day 1 of the current month triggers the
reset again mid-month, zeroing an interview counter of 2. -/
theorem canUse_reset_counterexample :
    ((subStaleReset.canUseFeature (some planBasic) "cv" dMay10).2.cvs_created = 3 ∧
     (subStaleReset.canUseFeature (some planBasic) "cv"
        dMay10).2.business_cards_created = 2 ∧
     (subStaleReset.canUseFeature (some planBasic) "cv"
        dMay10).2.interviews_used_this_month = 0) ∧
    (subDay1Reset.canUseFeature (some planBasic) "interview"
        dMay1late).2.interviews_used_this_month = 0 := by
  exact ⟨⟨rfl, rfl, rfl⟩, rfl⟩

/-- C6 amended: when the persisted reset date precedes the current time
with day replaced by 1, the entitlement check zeroes only the monthly
interview counter and persists `usage_reset_date` as the current time
with day set to 1; the CV and business-card counters are untouched. -/
theorem canUse_lazy_reset_interview_only (s : Subscription) (p : Plan)
    (f : String) (now : DateTime) (d : DateTime)
    (hact : s.isActive now = true)
    (hd : s.usage_reset_date = some d)
    (hstale : DateTime.ltb d now.replaceDay1 = true) :
    (s.canUseFeature (some p) f now).2.interviews_used_this_month = 0 ∧
    (s.canUseFeature (some p) f now).2.usage_reset_date = some now.replaceDay1 ∧
    (s.canUseFeature (some p) f now).2.cvs_created = s.cvs_created ∧
    (s.canUseFeature (some p) f now).2.business_cards_created =
      s.business_cards_created := by
  rw [canUseFeature_snd s p f now hact]
  unfold Subscription.applyLazyReset
  rw [hd]
  dsimp only
  rw [if_pos hstale]
  exact ⟨rfl, rfl, rfl, rfl⟩

/-- Witness for amended C6 at the stale-reset subscription. -/
theorem canUse_lazy_reset_interview_only_witness :
    (subStaleReset.canUseFeature (some planBasic) "business_card"
        dMay10).2.interviews_used_this_month = 0 ∧
    (subStaleReset.canUseFeature (some planBasic) "business_card"
        dMay10).2.usage_reset_date = some dMay10.replaceDay1 ∧
    (subStaleReset.canUseFeature (some planBasic) "business_card"
        dMay10).2.cvs_created = subStaleReset.cvs_created ∧
    (subStaleReset.canUseFeature (some planBasic) "business_card"
        dMay10).2.business_cards_created =
      subStaleReset.business_cards_created :=
  canUse_lazy_reset_interview_only subStaleReset planBasic "business_card"
    dMay10 dApr15 (by decide) rfl (by decide)

/-- C5: cancelling at period end keeps `end_date` at the boundary
(June 20) but `is_active()` is already false the next day (June 11),
because the status check `status == 'active'` fails once the status is
`'cancelled'` — the access retention the code's own comment promises
("Keep end_date as next billing date for access until period end") does
not happen. -/
theorem cancel_at_period_end_loses_access :
    (cancelSubscription (some subPaid) false dJun10).1 = true ∧
    ((cancelSubscription (some subPaid) false dJun10).2.map
      (fun s => s.end_date)) = some (some dJun20) ∧
    ((cancelSubscription (some subPaid) false dJun10).2.map
      (fun s => s.status)) = some "cancelled" ∧
    ((cancelSubscription (some subPaid) false dJun10).2.map
      (fun s => s.isActive dJun11)) = some false := by
  exact ⟨rfl, rfl, rfl, rfl⟩

/-- C7: a successful voucher application writes nothing — the voucher
table (with `used_count` still 0) and the redemption table (still empty)
come back unchanged, so a second application of a `max_uses = 1`
single-use voucher also succeeds. -/
theorem applyVoucher_never_records :
    applyVoucher [voucherSingleUse] "WELCOME" 7 "basic" dJun10 [] =
      (ApplyOutcome.success, [voucherSingleUse], []) ∧
    ((applyVoucher [voucherSingleUse] "WELCOME" 7 "basic" dJun10 []).2.1.map
      Voucher.used_count) = [0] ∧
    (applyVoucher [voucherSingleUse] "WELCOME" 8 "basic" dJun10
        (applyVoucher [voucherSingleUse] "WELCOME" 7 "basic" dJun10 []).2.2).1 =
      ApplyOutcome.success := by
  exact ⟨rfl, rfl, rfl⟩

/-- C8 counterexample: a voucher whose `valid_until` equals the current
time exactly passes validation, instead of failing as expired. -/
theorem voucher_boundary_counterexample :
    voucherBoundary.isValid dJun15 none none [] = (true, "Voucher is valid") := by
  exact rfl

/-- C8 amended: at `valid_until = now` the expiry branch cannot fire —
the check uses strict `valid_until < now`, so the boundary instant is
still inside the validity window. -/
theorem voucher_expiry_strict (v : Voucher) (now : DateTime)
    (uid : Option Nat) (pid : Option String) (reds : List VoucherUseRec)
    (h : v.valid_until = some now) :
    v.isValid now uid pid reds ≠ (false, "Voucher has expired") := by
  unfold Voucher.isValid
  rw [h]
  simp only [DateTime.ltb_self]
  split_ifs <;> first
  | decide
  | (exfalso; assumption)

/-- Witness for amended C8 at the boundary voucher. -/
theorem voucher_expiry_strict_witness :
    voucherBoundary.isValid dJun15 none none [] ≠
      (false, "Voucher has expired") :=
  voucher_expiry_strict voucherBoundary dJun15 none none [] rfl

/-- C9: voucher validation performs the spec's checks in the spec's
order, short-circuiting on the first failure — existence, active,
validity window, usage cap, plan allow-list, single use per user — with
the seven failure reasons pairwise distinct strings, and returns the
voucher record on success: the code model equals the rendering of the
spec-side model. -/
theorem validateVoucher_matches_spec :
    (∀ (vouchers : List Voucher) (code : String) (now : DateTime)
        (uid : Option Nat) (pid : Option String) (reds : List VoucherUseRec),
      validateVoucher vouchers code now uid pid reds =
        renderOutcome (specValidateVoucher vouchers code now uid pid reds)) ∧
    ([VReason.notFound, .inactive, .notYetValid, .expired, .usageLimit,
      .planNotApplicable, .alreadyUsed].map reasonString).Nodup := by
  constructor
  · intro vouchers code now uid pid reds
    unfold validateVoucher specValidateVoucher
    cases hf : vouchers.find? (fun v => v.code = code)
    · rfl
    · rename_i v
      dsimp only
      unfold Voucher.isValid
      simp only [windowLow_neg, windowHigh_neg, usage_neg]
      split_ifs <;> rfl
  · decide

/-- C4 counterexample: (a) a fixed voucher worth 1 applied to the
sub-cent amount 0.006 yields 0.01, greater than the original amount;
(b) a fixed voucher with a negative stored value yields a negative
discount. -/
theorem calculateDiscount_bounds_counterexample :
    (voucherFixed1.calculateDiscount (3/500) = 1/100 ∧
      (3/500 : ℚ) < 1/100) ∧
    (voucherFixedNeg.calculateDiscount 10 = -5 ∧ (-5 : ℚ) < 0) := by
  have h35 : bankersRound (3/5 : ℚ) = 1 := by
    have h := bankersRound_eq_succ (3/5) 0 (by norm_num) (by norm_num)
    simpa using h
  refine ⟨⟨?_, by norm_num⟩, ⟨?_, by norm_num⟩⟩
  · unfold Voucher.calculateDiscount
    rw [if_neg (by decide)]
    show round2 (min (1 : ℚ) (3/500)) = 1/100
    rw [min_eq_right (by norm_num : (3/500 : ℚ) ≤ 1)]
    unfold round2
    rw [show (3/500 : ℚ) * 100 = 3/5 by norm_num, h35]
    norm_num
  · unfold Voucher.calculateDiscount
    rw [if_neg (by decide)]
    show round2 (min (-5 : ℚ) 10) = -5
    rw [min_eq_left (by norm_num : (-5 : ℚ) ≤ 10)]
    unfold round2
    rw [show ((-5 : ℚ) * 100) = ((-500 : ℤ) : ℚ) by norm_num, bankersRound_intCast]
    norm_num

/-- C4 amended: for a voucher with non-negative `discount_value`
(percentage value at most 100) and an original amount that is a whole
number of cents, the discount is between 0 and the original amount;
percentage vouchers return the rounded percentage, fixed vouchers the
rounded clamp. -/
theorem calculateDiscount_bounds (v : Voucher) (k : Nat) (original : ℚ)
    (hk : original = (k : ℚ) / 100)
    (hv0 : 0 ≤ v.discount_value)
    (hv100 : v.discount_type = "percentage" → v.discount_value ≤ 100) :
    0 ≤ v.calculateDiscount original ∧
    v.calculateDiscount original ≤ original ∧
    (v.discount_type = "percentage" →
      v.calculateDiscount original =
        round2 (original * (v.discount_value / 100))) ∧
    (v.discount_type ≠ "percentage" →
      v.calculateDiscount original = round2 (min v.discount_value original)) := by
  have horig : 0 ≤ original := by
    rw [hk]
    positivity
  by_cases hp : v.discount_type = "percentage"
  · have hd0 : 0 ≤ original * (v.discount_value / 100) := by positivity
    have h1 : v.discount_value / 100 ≤ 1 := by
      have h := hv100 hp
      linarith
    have hdle : original * (v.discount_value / 100) ≤ original := by
      have h2 : original * (v.discount_value / 100) ≤ original * 1 :=
        mul_le_mul_of_nonneg_left h1 horig
      simpa using h2
    unfold Voucher.calculateDiscount
    rw [if_pos hp]
    refine ⟨round2_nonneg _ hd0, ?_, fun _ => rfl, fun hne => absurd hp hne⟩
    rw [hk] at hdle ⊢
    exact round2_le_cent _ k hdle
  · have hd0 : 0 ≤ min v.discount_value original := le_min hv0 horig
    have hdle : min v.discount_value original ≤ original := min_le_right _ _
    unfold Voucher.calculateDiscount
    rw [if_neg hp]
    refine ⟨round2_nonneg _ hd0, ?_, fun hpp => absurd hpp hp, fun _ => rfl⟩
    rw [hk] at hdle ⊢
    exact round2_le_cent _ k hdle

/-- Witness for amended C4: the spec scenario of a 20% voucher on
100.00. -/
theorem calculateDiscount_bounds_witness :
    0 ≤ voucherPct20.calculateDiscount 100 ∧
    voucherPct20.calculateDiscount 100 ≤ 100 ∧
    (voucherPct20.discount_type = "percentage" →
      voucherPct20.calculateDiscount 100 =
        round2 (100 * (voucherPct20.discount_value / 100))) ∧
    (voucherPct20.discount_type ≠ "percentage" →
      voucherPct20.calculateDiscount 100 =
        round2 (min voucherPct20.discount_value 100)) :=
  calculateDiscount_bounds voucherPct20 10000 100 (by norm_num)
    (by norm_num [voucherPct20]) (fun _ => by norm_num [voucherPct20])

end InterviewPro
